import Mathlib

/-!
Verification of the QIHE pick-and-place export plugin (`qihe/qihe.py`,
`qihe/functions.py`).

The Python code is shallowly embedded: strings are Lean `String`s but all
string primitives (`str.strip`, `str.split(sep)`, `str.split()`, string
ordering, case-insensitive containment) are re-implemented structurally over
`List Char` so that every definition evaluates by kernel reduction.  Python
floats are modelled by `Rat` (exact arithmetic); Python's `%` on numbers is
floor-mod, modelled by `pyMod`.  Python's `dict` is modelled as an ordered
association list where insertion overwrites in place (`dictInsert`) and
lookup takes the stored binding (`dictGet`).  `re.search(p, v, re.IGNORECASE)`
is an external regex engine; the classifier is parametrised by an arbitrary
matcher `search : String → String → Bool` standing for it, and `ciSearch`
(case-insensitive substring containment, the meaning of `re.search` on
metacharacter-free patterns such as the documented `NC`, `TP`, `FIDUCIAL`)
is used for concrete instances.  Python's stable `list.sort(key=...)` is
modelled by the stable insertion sort `List.insertionSort` over the key
order; stable sorts agree extensionally, so this is faithful to CPython's
timsort.  File I/O is modelled by passing file contents (`List String` of
lines, `Option` for a possibly-absent file) explicitly.
-/

/-- Python `str.isspace` on a single character (the whitespace characters
stripped by `str.strip()` and split on by `str.split()`). -/
def pyIsSpace (c : Char) : Bool :=
  c = ' ' || c = '\t' || c = '\n' || c = '\r' || c = '\x0b' || c = '\x0c'

/-- Drop leading and trailing whitespace from a character list. -/
def stripChars (l : List Char) : List Char :=
  ((l.dropWhile pyIsSpace).reverse.dropWhile pyIsSpace).reverse

/-- Python `str.strip()`. -/
def pyStrip (s : String) : String := ⟨stripChars s.data⟩

/-- Worker for `pySplitChar`: split at every occurrence of `sep`, keeping
empty pieces, accumulating the current piece in reverse. -/
def splitCharAux (sep : Char) : List Char → List Char → List (List Char)
  | [], acc => [acc.reverse]
  | c :: cs, acc =>
    if c = sep then acc.reverse :: splitCharAux sep cs []
    else splitCharAux sep cs (c :: acc)

/-- Python `str.split(sep)` for a one-character separator: splits at every
occurrence, keeping empty pieces (`"".split(',') == ['']`). -/
def pySplitChar (sep : Char) (s : String) : List String :=
  (splitCharAux sep s.data []).map fun l => ⟨l⟩

/-- Worker for `pySplitWs`: split on runs of whitespace, discarding empty
pieces. -/
def splitWsAux : List Char → List Char → List (List Char)
  | [], [] => []
  | [], acc => [acc.reverse]
  | c :: cs, acc =>
    if pyIsSpace c then
      (if acc.isEmpty then splitWsAux cs [] else acc.reverse :: splitWsAux cs [])
    else splitWsAux cs (c :: acc)

/-- Python `str.split()` with no argument: split on whitespace runs; leading
and trailing whitespace ignored; a whitespace-only string yields `[]`. -/
def pySplitWs (s : String) : List String :=
  (splitWsAux s.data []).map fun l => ⟨l⟩

/-- Lexicographic `≤` on character lists by Unicode code point: Python's
string comparison. -/
def strLeB : List Char → List Char → Bool
  | [], _ => true
  | _ :: _, [] => false
  | a :: as, b :: bs =>
    if a.toNat < b.toNat then true
    else if b.toNat < a.toNat then false
    else strLeB as bs

/-- ASCII-lowercase every character (Python `str.lower` restricted to what
`re.IGNORECASE` needs for the documented patterns). -/
def lowerChars (l : List Char) : List Char := l.map Char.toLower

/-- Does the first list occur as an initial segment of the second? -/
def startsList : List Char → List Char → Bool
  | [], _ => true
  | _ :: _, [] => false
  | a :: as, b :: bs => a = b && startsList as bs

/-- Does `needle` occur as a contiguous sublist of the haystack? -/
def containsSub (needle : List Char) : List Char → Bool
  | [] => needle.isEmpty
  | c :: cs => startsList needle (c :: cs) || containsSub needle cs

/-- Concrete matcher standing for `re.search(pattern, value, re.IGNORECASE)`
on patterns that contain no regex metacharacters: case-insensitive substring
containment. -/
def ciSearch (pattern : String) (value : String) : Bool :=
  containsSub (lowerChars pattern.data) (lowerChars value.data)

/-- Floor of a rational.  `Rat.den` is positive, so `Int.fdiv num den` is the
mathematical floor. -/
def ratFloor (q : Rat) : Int := Int.fdiv q.num q.den

/-- Python's `%` on numbers: floor-mod, `x - m * ⌊x / m⌋`. -/
def pyMod (x m : Rat) : Rat := x - m * (ratFloor (x / m) : Rat)

/-- Round `100 * y` to the nearest integer, ties to even (Python's rounding
of an exactly representable value in `format(x, '.2f')`). -/
def ratRound2 (y : Rat) : Int :=
  let n := y * 100
  let i := ratFloor n
  let f := n - (i : Rat)
  if f > 1/2 then i + 1
  else if f < 1/2 then i
  else if i % 2 = 0 then i else i + 1

/-- Render a number below 100 as exactly two decimal digits. -/
def twoDigitStr (d : Nat) : String :=
  if d < 10 then "0" ++ toString d else toString d

/-- Python `f"{x:.2f}"` on an exactly representable value. -/
def formatFixed2 (x : Rat) : String :=
  let neg := x < 0
  let m := if neg then -x else x
  let r := (ratRound2 m).toNat
  (if neg then "-" else "") ++ toString (r / 100) ++ "." ++ twoDigitStr (r % 100)

/-- Python `dict` assignment `d[k] = v`: overwrite in place if the key is
present, else append the new binding. -/
def dictInsert {α : Type} : List (String × α) → String → α → List (String × α)
  | [], k, v => [(k, v)]
  | (k', v') :: rest, k, v =>
    if k' = k then (k, v) :: rest else (k', v') :: dictInsert rest k v

/-- Python `dict` lookup `d.get(k)` / `k in d`: the stored binding, if any. -/
def dictGet {α : Type} : List (String × α) → String → Option α
  | [], _ => none
  | (k', v') :: rest, k => if k' = k then some v' else dictGet rest k

/-- The three structures produced by `load_component_mapping`
(qihe.py:164-197): the component-name table and the two pattern lists. -/
structure MappingData where
  mapping : List (String × String × String)
  exclude_patterns : List String
  priority_patterns : List String
deriving DecidableEq

/-- One iteration of the parsing loop of `load_component_mapping`
(qihe.py:173-193): strip the line; skip empty lines and comments; split on
commas; lines with fewer than three fields are skipped; tag `E` extends the
exclusion patterns with the colon-split third field, tag `P` likewise for
priority patterns, and any other tag inserts each colon-separated component
name (stripped) as a key mapped to `(tag, second field)`. -/
def process_mapping_line (d : MappingData) (rawLine : String) : MappingData :=
  let line := pyStrip rawLine
  if line = "" || line.data.head? = some '#' then d
  else
    match pySplitChar ',' line with
    | p0 :: p1 :: p2 :: _ =>
      let tag := pyStrip p0
      let param1 := pyStrip p1
      let param2 := pyStrip p2
      if tag = "E" then
        { d with exclude_patterns := d.exclude_patterns ++ pySplitChar ':' param2 }
      else if tag = "P" then
        { d with priority_patterns := d.priority_patterns ++ pySplitChar ':' param2 }
      else
        let newMapping := (pySplitChar ':' param2).foldl
          (fun m comp => dictInsert m (pyStrip comp) (tag, param1)) d.mapping
        { d with mapping := newMapping }
    | _ => d

/-- `load_component_mapping` (qihe.py:164-197) applied to the lines of an
existing mapping file: fold the per-line parser over the file from empty
structures. -/
def load_component_mapping (lines : List String) : MappingData :=
  lines.foldl process_mapping_line ⟨[], [], []⟩

/-- The lines of `default_content` written by `create_default_mapping_file`
(functions.py:63-105). -/
def default_mapping_lines : List String :=
  [ "######################################"
  , "# Component Mapping for QIHE PnP machine"
  , "#"
  , "# For more information on how to edit this file, visit:"
  , "# https://github.com/jpkh/ki_qihe"
  , "#"
  , "# Contact: [Use GitHub issues for questions and suggestions]"
  , "#"
  , "# This file defines mappings for component placement and special instructions."
  , "# Each line follows one of these formats:"
  , "#"
  , "# Component Mapping Line:"
  , "#   1 or 2, Feeder ID, Component Name(s)"
  , "#   - \x271 or 2\x27 specifies the nozzle number."
  , "#   - \x27Feeder ID\x27 is the feeder location, formatted as Lxx or Bxx"
  , "#      (e.g., L1, B12)."
  , "#   - \x27Component Name(s)\x27 are the names of components, separated by colons (:)."
  , "#     These names should match the component values in the PCB design."
  , "#   Example: 1, L1, 0n1:100nF:100nf:0.1uF:0.1uf"
  , "#"
  , "# Exclude Line:"
  , "#   E, , Regex Pattern(s)"
  , "#   - \x27E\x27 indicates this line specifies components to exclude."
  , "#   - \x27Regex Pattern(s)\x27 are patterns to match components to be excluded,"
  , "#      separated by colons (:)."
  , "#   Example: E, , NC:TP"
  , "#"
  , "# Priority Line:"
  , "#   P, , Regex Pattern(s)"
  , "#   - \x27P\x27 indicates this line specifies priority components."
  , "#   - \x27Regex Pattern(s)\x27 are patterns to match priority components,"
  , "#      separated by colons (:)."
  , "#   Example: P, , FIDUCIAL:TESTPOINT"
  , "#"
  , "" ]

/-- The file-system-facing part of `load_component_mapping` (qihe.py:165-167):
the argument is the current contents of the mapping file (`none` if the file
does not exist).  If absent, `create_default_mapping_file` writes the default
template and parsing proceeds on it; the result is the contents of the file
after the call together with the parsed structures. -/
def load_component_mapping_fs (contents : Option (List String)) :
    List String × MappingData :=
  match contents with
  | none => (default_mapping_lines, load_component_mapping default_mapping_lines)
  | some ls => (ls, load_component_mapping ls)

/-- `pcbnew.FP_EXCLUDE_FROM_POS_FILES` (KiCad footprint attribute bit). -/
def FP_EXCLUDE_FROM_POS_FILES : Nat := 4

/-- `pcbnew.FP_EXCLUDE_FROM_BOM` (KiCad footprint attribute bit). -/
def FP_EXCLUDE_FROM_BOM : Nat := 8

/-- The attribute test of qihe.py:218:
`mod.GetAttributes() & (pcbnew.FP_EXCLUDE_FROM_POS_FILES | pcbnew.FP_EXCLUDE_FROM_BOM)`
used as a truth value. -/
def attrExcluded (attrs : Nat) : Bool :=
  attrs &&& (FP_EXCLUDE_FROM_POS_FILES ||| FP_EXCLUDE_FROM_BOM) ≠ 0

/-- The slice of the `pcbnew` footprint object that `write_qihe_file` reads:
reference designator, value string, position (internal integer nanometres),
orientation in degrees, layer id, and the attribute bit set. -/
structure Footprint where
  reference : String
  value : String
  posX : Int
  posY : Int
  orientationDegrees : Rat
  layer : Nat
  attributes : Nat
deriving DecidableEq

/-- The shared loop shape of `is_excluded` (qihe.py:132-140) and
`is_priority` (qihe.py:143-151): walk the pattern list in file order and
return true at the first pattern the matcher accepts. -/
def matchesAny (search : String → String → Bool) (v : String) : List String → Bool
  | [] => false
  | p :: ps => if search p v then true else matchesAny search v ps

/-- `is_excluded` (qihe.py:132-140): does any exclusion pattern match the
footprint's value? -/
def is_excluded (search : String → String → Bool) (exclude_patterns : List String)
    (mod : Footprint) : Bool :=
  matchesAny search mod.value exclude_patterns

/-- `is_priority` (qihe.py:143-151): does any priority pattern match the
footprint's value? -/
def is_priority (search : String → String → Bool) (priority_patterns : List String)
    (mod : Footprint) : Bool :=
  matchesAny search mod.value priority_patterns

/-- The five buckets a footprint can land in. -/
inductive ClassTag where
  | exclAttrC
  | exclPatternC
  | priorityC
  | mappedC
  | unmappedC
deriving DecidableEq

/-- The decision chain of the classification loop body (qihe.py:216-242):
attribute exclusion first, then pattern exclusion, then priority patterns,
then mapping-key lookup (`mod.GetValue() in component_mapping`), with
unmapped as the fallback. -/
def classifyOne (search : String → String → Bool) (exclude_patterns : List String)
    (priority_patterns : List String) (component_mapping : List (String × String × String))
    (mod : Footprint) : ClassTag :=
  if attrExcluded mod.attributes then .exclAttrC
  else if is_excluded search exclude_patterns mod then .exclPatternC
  else if is_priority search priority_patterns mod then .priorityC
  else if (dictGet component_mapping mod.value).isSome then .mappedC
  else .unmappedC

/-- The five accumulator lists of `write_qihe_file` (qihe.py:207-211). -/
structure Classified where
  priority_footprints : List Footprint
  mapped_footprints : List Footprint
  unmapped_footprints : List Footprint
  excluded_by_pattern : List Footprint
  excluded_by_attribute : List Footprint
deriving DecidableEq

/-- One iteration of the classification loop (qihe.py:216-242), appending the
footprint to the bucket selected by the decision chain. -/
def classifyStep (search : String → String → Bool) (exclude_patterns : List String)
    (priority_patterns : List String) (component_mapping : List (String × String × String))
    (c : Classified) (mod : Footprint) : Classified :=
  if attrExcluded mod.attributes then
    { c with excluded_by_attribute := c.excluded_by_attribute ++ [mod] }
  else if is_excluded search exclude_patterns mod then
    { c with excluded_by_pattern := c.excluded_by_pattern ++ [mod] }
  else if is_priority search priority_patterns mod then
    { c with priority_footprints := c.priority_footprints ++ [mod] }
  else if (dictGet component_mapping mod.value).isSome then
    { c with mapped_footprints := c.mapped_footprints ++ [mod] }
  else
    { c with unmapped_footprints := c.unmapped_footprints ++ [mod] }

/-- The layer filter (qihe.py:214) followed by the classification loop
(qihe.py:216-242). -/
def classify (search : String → String → Bool) (exclude_patterns : List String)
    (priority_patterns : List String) (component_mapping : List (String × String × String))
    (footprints : List Footprint) (layer : Nat) : Classified :=
  (footprints.filter fun mod => mod.layer = layer).foldl
    (classifyStep search exclude_patterns priority_patterns component_mapping)
    ⟨[], [], [], [], []⟩

/-- `get_sort_key` (qihe.py:154-161): `mod.GetValue().split()[0]`.  The `[0]`
indexing raises `IndexError` on an empty token list, modelled by `none`. -/
def get_sort_key (mod : Footprint) : Option String :=
  (pySplitWs mod.value).head?

/-- The character list of a footprint's sort key, with a default for the
error case (only used where every key is defined). -/
def sortKeyChars (mod : Footprint) : List Char :=
  ((get_sort_key mod).getD "").data

/-- The sort order used by `group.sort(key=self.get_sort_key)` (qihe.py:246):
Python string `≤` on the sort keys. -/
def sortKeyRel (a b : Footprint) : Prop :=
  strLeB (sortKeyChars a) (sortKeyChars b) = true

instance : DecidableRel sortKeyRel := fun _ _ =>
  inferInstanceAs (Decidable (_ = true))

/-- `group.sort(key=self.get_sort_key)` (qihe.py:246): Python first computes
every element's key — raising `IndexError` (here: `none`) if any value has no
tokens — then stably sorts by key.  Stable sorts are extensionally unique, so
CPython's timsort is modelled by stable insertion sort. -/
def sortGroup (group : List Footprint) : Option (List Footprint) :=
  if group.all fun mod => (get_sort_key mod).isSome then
    some (List.insertionSort sortKeyRel group)
  else none

/-- The header row written at qihe.py:204-205. -/
def headerRow : List String :=
  ["Designator", "NozzleNum", "StackNum", "Mid X", "Mid Y",
   "Rotation", "Height", "Speed", "Vision", "Check", "Explanation"]

/-- The fixed trailer written at qihe.py:282-288: one blank row, the literal
`Puzzle` row, eight repetitions of a `0.00` row followed by a blank row, and
two final blank rows. -/
def trailerRows : List (List String) :=
  [[], ["Puzzle"]] ++ (List.replicate 8 [["0.00"], ([] : List String)]).flatten
    ++ [[], []]

/-- One data row (qihe.py:247-269): scaled, offset position; rotation
`(orientation + 270) % 360`; nozzle and stack from
`component_mapping.get(value, ("1/2", "None"))`; fixed height `0.00`, speed
`100`, vision `None`, check `True`; explanation `"<value> <reference>"`, with
a `PRIO ` marker when the footprint is in the priority list. -/
def renderRow (priority_footprints : List Footprint)
    (component_mapping : List (String × String × String))
    (xOffset yOffset : Rat) (mod : Footprint) : List String :=
  let mid_x : Rat := (mod.posX : Rat) / 1000000 + xOffset
  let mid_y : Rat := (mod.posY : Rat) / 1000000 + yOffset
  let rotation : Rat := pyMod (mod.orientationDegrees + 270) 360
  let ns := (dictGet component_mapping mod.value).getD ("1/2", "None")
  let explanation := mod.value ++ " " ++ mod.reference
  let explanation :=
    if mod ∈ priority_footprints then "PRIO " ++ explanation else explanation
  [mod.reference, ns.1, ns.2, formatFixed2 mid_x, formatFixed2 mid_y,
   formatFixed2 rotation, "0.00", "100", "None", "True", explanation]

/-- `write_qihe_file` (qihe.py:199-298) as a function from the inputs it
reads to the rows of the CSV it writes: header, one row per surviving
footprint in sorted group order, then the fixed trailer.  An exception while
computing sort keys lands in the `except` branch (qihe.py:297-298), modelled
by `Except.error` carrying the logged message. -/
def write_qihe_file (search : String → String → Bool) (footprints : List Footprint)
    (layer : Nat) (xOffset yOffset : Rat)
    (component_mapping : List (String × String × String))
    (exclude_patterns priority_patterns : List String) :
    Except String (List (List String)) :=
  let c := classify search exclude_patterns priority_patterns component_mapping
    footprints layer
  match sortGroup c.priority_footprints, sortGroup c.mapped_footprints,
      sortGroup c.unmapped_footprints with
  | some sp, some sm, some su =>
    .ok (headerRow ::
      ((sp ++ sm ++ su).map
        (renderRow sp component_mapping xOffset yOffset) ++ trailerRows))
  | _, _, _ => .error "Error writing to file: list index out of range"

/-- Modelled from the spec: does this single line, read as a mapping line,
define the component name `k`, and if so with which `(nozzle, feeder)` pair?
Used to state the last-definition-wins property. -/
def lineAssigns (rawLine : String) (k : String) : Option (String × String) :=
  let line := pyStrip rawLine
  if line = "" || line.data.head? = some '#' then none
  else
    match pySplitChar ',' line with
    | p0 :: p1 :: p2 :: _ =>
      let tag := pyStrip p0
      if tag = "E" || tag = "P" then none
      else if (pySplitChar ':' (pyStrip p2)).any fun comp => pyStrip comp = k then
        some (tag, pyStrip p1)
      else none
    | _ => none

/-- Modelled from the spec: the `(nozzle, feeder)` pair of the last line in
file order that defines the component name `k`. -/
def lastDefinition (lines : List String) (k : String) : Option (String × String) :=
  match lines with
  | [] => none
  | l :: rest => (lastDefinition rest k).or (lineAssigns l k)

/-- Decidable equality for `Except`, used to evaluate `write_qihe_file` on
concrete inputs. -/
instance {e a : Type} [DecidableEq e] [DecidableEq a] : DecidableEq (Except e a) :=
  fun x y =>
    match x, y with
    | .ok u, .ok v => if h : u = v then .isTrue (by rw [h]) else .isFalse (by simp [h])
    | .error u, .error v => if h : u = v then .isTrue (by rw [h]) else .isFalse (by simp [h])
    | .ok _, .error _ => .isFalse (by simp)
    | .error _, .ok _ => .isFalse (by simp)

/-- The bucket of `Classified` selected by a classification tag. -/
def bucketOf (c : Classified) : ClassTag → List Footprint
  | .exclAttrC => c.excluded_by_attribute
  | .exclPatternC => c.excluded_by_pattern
  | .priorityC => c.priority_footprints
  | .mappedC => c.mapped_footprints
  | .unmappedC => c.unmapped_footprints

/-- Sample footprint: plain resistor, front layer, no attribute flags. -/
def fpR1 : Footprint := ⟨"R1", "R1VAL 0805", 5000000, 6000000, 90, 0, 0⟩

/-- Sample footprint: sorts after `fpR1` by first-token key. -/
def fpR2 : Footprint := ⟨"R2", "R2VAL 0603", 7000000, 8000000, 0, 0, 0⟩

/-- Sample footprint: value `NC`, matched by the documented exclusion
pattern. -/
def fpNC : Footprint := ⟨"J1", "NC", 1000000, 2000000, 0, 0, 0⟩

/-- Sample footprint: flagged `FP_EXCLUDE_FROM_BOM`. -/
def fpAttr : Footprint := ⟨"U1", "NC", 3000000, 4000000, 0, 0, FP_EXCLUDE_FROM_BOM⟩

/-- Sample footprint: whitespace-only value. -/
def fpBlank : Footprint := ⟨"X1", "   ", 0, 0, 0, 0, 0⟩

example : pyStrip "  a b " = "a b" := by decide

example : pySplitChar ',' "1, L1, 0n1:100nF" = ["1", " L1", " 0n1:100nF"] := by decide

example : pySplitWs "  10k  5%  " = ["10k", "5%"] := by decide

example : ciSearch "nc" "NC" = true := by decide

example :
    load_component_mapping ["1, L1, 0n1:100nF"] =
      ⟨[("0n1", ("1", "L1")), ("100nF", ("1", "L1"))], [], []⟩ := by decide

theorem dictGet_dictInsert {α : Type} (m : List (String × α)) (k k' : String) (v : α) :
    dictGet (dictInsert m k v) k' = if k = k' then some v else dictGet m k' := by
  induction m with
  | nil => simp [dictInsert, dictGet]
  | cons hd tl ih =>
    obtain ⟨a, b⟩ := hd
    by_cases hak : a = k
    · subst hak
      simp only [dictInsert, if_pos rfl, dictGet]
      by_cases hk : a = k' <;> simp [dictGet, hk]
    · simp only [dictInsert, if_neg hak, dictGet]
      by_cases hk : a = k'
      · subst hk
        rw [if_neg (Ne.symm hak)]
        simp
      · simp [hk, ih]

theorem dictGet_foldl_dictInsert {α : Type} (v : α) (g : String → String)
    (comps : List String) (m : List (String × α)) (k : String) :
    dictGet (comps.foldl (fun acc c => dictInsert acc (g c) v) m) k =
      if comps.any (fun c => g c = k) then some v else dictGet m k := by
  induction comps generalizing m with
  | nil => simp
  | cons c cs ih =>
    simp only [List.foldl_cons, List.any_cons, ih, dictGet_dictInsert]
    by_cases h1 : g c = k <;> by_cases h2 : cs.any (fun c => g c = k) = true <;>
      simp [h1, h2]

theorem matchesAny_eq_any (search : String → String → Bool) (v : String)
    (ps : List String) : matchesAny search v ps = ps.any fun pat => search pat v := by
  induction ps with
  | nil => rfl
  | cons q qs ih =>
    simp only [matchesAny, List.any_cons]
    cases hq : search q v <;> simp [hq, ih]

theorem strLeB_total : ∀ (a b : List Char), strLeB a b = true ∨ strLeB b a = true
  | [], _ => Or.inl rfl
  | _ :: _, [] => Or.inr rfl
  | a :: as, b :: bs => by
    rcases Nat.lt_trichotomy a.toNat b.toNat with h | h | h
    · left
      simp [strLeB, h]
    · have h1 : ¬ a.toNat < b.toNat := by omega
      have h2 : ¬ b.toNat < a.toNat := by omega
      rcases strLeB_total as bs with ih | ih
      · left
        simp [strLeB, h1, h2, ih]
      · right
        simp [strLeB, h1, h2, ih]
    · right
      simp [strLeB, h]

theorem strLeB_trans :
    ∀ (a b c : List Char), strLeB a b = true → strLeB b c = true → strLeB a c = true
  | [], _, _, _, _ => rfl
  | _ :: _, [], _, hab, _ => by simp [strLeB] at hab
  | _ :: _, _ :: _, [], _, hbc => by simp [strLeB] at hbc
  | a :: as, b :: bs, c :: cs, hab, hbc => by
    simp only [strLeB] at hab hbc ⊢
    rcases Nat.lt_trichotomy b.toNat a.toNat with h1 | h1 | h1
    · exfalso
      rw [if_neg (show ¬ a.toNat < b.toNat by omega), if_pos h1] at hab
      exact Bool.false_ne_true hab
    · rcases Nat.lt_trichotomy c.toNat b.toNat with h2 | h2 | h2
      · exfalso
        rw [if_neg (show ¬ b.toNat < c.toNat by omega), if_pos h2] at hbc
        exact Bool.false_ne_true hbc
      · rw [if_neg (show ¬ a.toNat < b.toNat by omega),
          if_neg (show ¬ b.toNat < a.toNat by omega)] at hab
        rw [if_neg (show ¬ b.toNat < c.toNat by omega),
          if_neg (show ¬ c.toNat < b.toNat by omega)] at hbc
        rw [if_neg (show ¬ a.toNat < c.toNat by omega),
          if_neg (show ¬ c.toNat < a.toNat by omega)]
        exact strLeB_trans as bs cs hab hbc
      · rw [if_pos (show a.toNat < c.toNat by omega)]
    · rcases Nat.lt_trichotomy c.toNat b.toNat with h2 | h2 | h2
      · exfalso
        rw [if_neg (show ¬ b.toNat < c.toNat by omega), if_pos h2] at hbc
        exact Bool.false_ne_true hbc
      · rw [if_pos (show a.toNat < c.toNat by omega)]
      · rw [if_pos (show a.toNat < c.toNat by omega)]

theorem dictGet_process_mapping_line (d : MappingData) (rawLine : String) (k : String) :
    dictGet (process_mapping_line d rawLine).mapping k =
      (lineAssigns rawLine k).or (dictGet d.mapping k) := by
  unfold process_mapping_line lineAssigns
  by_cases h0 : (pyStrip rawLine = "" || (pyStrip rawLine).data.head? = some '#') = true
  · simp only [h0, if_pos]
    simp [Option.or]
  · simp only [Bool.not_eq_true] at h0
    simp only [h0, Bool.false_eq_true, if_false]
    rcases hparts : pySplitChar ',' (pyStrip rawLine) with _ | ⟨p0, rest1⟩
    · simp [Option.or]
    rcases rest1 with _ | ⟨p1, rest2⟩
    · simp [Option.or]
    rcases rest2 with _ | ⟨p2, rest3⟩
    · simp [Option.or]
    by_cases hE : pyStrip p0 = "E"
    · simp [hE, Option.or]
    by_cases hP : pyStrip p0 = "P"
    · simp [hE, hP, Option.or]
    simp only [hE, hP, if_false, Bool.or_self, Bool.false_eq_true]
    rw [dictGet_foldl_dictInsert]
    by_cases hany :
        ((pySplitChar ':' (pyStrip p2)).any fun comp => pyStrip comp = k) = true
    · simp [hE, hP, hany, Option.or]
    · simp [hE, hP, hany, Option.or]

theorem dictGet_foldl_process (lines : List String) (d : MappingData) (k : String) :
    dictGet (lines.foldl process_mapping_line d).mapping k =
      (lastDefinition lines k).or (dictGet d.mapping k) := by
  induction lines generalizing d with
  | nil => simp [lastDefinition, Option.or]
  | cons l rest ih =>
    simp only [List.foldl_cons, lastDefinition]
    rw [ih, dictGet_process_mapping_line, Option.or_assoc]

theorem splitWsAux_nil_of_space :
    ∀ (l : List Char), (∀ c ∈ l, pyIsSpace c = true) → splitWsAux l [] = []
  | [], _ => rfl
  | c :: cs, h => by
    have hc : pyIsSpace c = true := h c (by simp)
    simp only [splitWsAux, hc, if_pos, List.isEmpty_nil, if_true]
    exact splitWsAux_nil_of_space cs fun x hx => h x (by simp [hx])

theorem get_sort_key_none (mod : Footprint)
    (h : ∀ c ∈ mod.value.data, pyIsSpace c = true) : get_sort_key mod = none := by
  unfold get_sort_key pySplitWs
  rw [splitWsAux_nil_of_space _ h]
  rfl

theorem bucketOf_classifyStep (search : String → String → Bool)
    (e p : List String) (mp : List (String × String × String))
    (c : Classified) (mod : Footprint) (t : ClassTag) :
    bucketOf (classifyStep search e p mp c mod) t =
      if classifyOne search e p mp mod = t then bucketOf c t ++ [mod]
      else bucketOf c t := by
  by_cases h1 : attrExcluded mod.attributes = true <;>
    by_cases h2 : is_excluded search e mod = true <;>
      by_cases h3 : is_priority search p mod = true <;>
        by_cases h4 : (dictGet mp mod.value).isSome = true <;>
          cases t <;>
            simp [classifyStep, classifyOne, bucketOf, h1, h2, h3, h4]

theorem bucketOf_foldl_classifyStep (search : String → String → Bool)
    (e p : List String) (mp : List (String × String × String))
    (l : List Footprint) (c : Classified) (t : ClassTag) :
    bucketOf (l.foldl (classifyStep search e p mp) c) t =
      bucketOf c t ++ l.filter (fun mod => classifyOne search e p mp mod = t) := by
  induction l generalizing c with
  | nil => simp
  | cons m rest ih =>
    simp only [List.foldl_cons, List.filter_cons]
    rw [ih, bucketOf_classifyStep]
    by_cases h : classifyOne search e p mp m = t <;> simp [h]

theorem mem_bucketOf_classify (search : String → String → Bool)
    (e p : List String) (mp : List (String × String × String))
    (fps : List Footprint) (layer : Nat) (mod : Footprint) (t : ClassTag) :
    mod ∈ bucketOf (classify search e p mp fps layer) t ↔
      mod ∈ fps ∧ mod.layer = layer ∧ classifyOne search e p mp mod = t := by
  unfold classify
  rw [bucketOf_foldl_classifyStep]
  cases t <;> simp [bucketOf, List.mem_filter, and_assoc] <;> tauto

theorem sortGroup_eq_some (g l : List Footprint) (h : sortGroup g = some l) :
    l.Perm g ∧ List.Sorted sortKeyRel l := by
  unfold sortGroup at h
  by_cases hc : (g.all fun mod => (get_sort_key mod).isSome) = true
  · rw [if_pos hc] at h
    obtain rfl : List.insertionSort sortKeyRel g = l := Option.some.inj h
    refine ⟨List.perm_insertionSort _ _, ?_⟩
    exact @List.sorted_insertionSort _ sortKeyRel _
      ⟨fun a b => strLeB_total _ _⟩
      ⟨fun a b c hab hbc => strLeB_trans _ _ _ hab hbc⟩ g
  · rw [if_neg hc] at h
    exact absurd h (by simp)

theorem sortGroup_eq_none (g : List Footprint) (mod : Footprint)
    (h1 : mod ∈ g) (h2 : get_sort_key mod = none) : sortGroup g = none := by
  unfold sortGroup
  rw [if_neg]
  intro hall
  rw [List.all_eq_true] at hall
  have hm := hall mod h1
  rw [h2] at hm
  simp at hm

theorem write_qihe_file_ok (search : String → String → Bool) (fps : List Footprint)
    (layer : Nat) (x y : Rat) (mp : List (String × String × String))
    (e p : List String) (out : List (List String))
    (h : write_qihe_file search fps layer x y mp e p = .ok out) :
    ∃ sp sm su,
      sortGroup (classify search e p mp fps layer).priority_footprints = some sp ∧
      sortGroup (classify search e p mp fps layer).mapped_footprints = some sm ∧
      sortGroup (classify search e p mp fps layer).unmapped_footprints = some su ∧
      out = headerRow :: ((sp ++ sm ++ su).map (renderRow sp mp x y) ++ trailerRows) := by
  simp only [write_qihe_file] at h
  rcases h1 : sortGroup (classify search e p mp fps layer).priority_footprints with _ | sp <;>
    rcases h2 : sortGroup (classify search e p mp fps layer).mapped_footprints with _ | sm <;>
      rcases h3 : sortGroup (classify search e p mp fps layer).unmapped_footprints with _ | su <;>
        rw [h1, h2, h3] at h <;> simp only [Except.ok.injEq] at h
  · exact absurd h (by simp)
  · exact absurd h (by simp)
  · exact absurd h (by simp)
  · exact absurd h (by simp)
  · exact absurd h (by simp)
  · exact absurd h (by simp)
  · exact absurd h (by simp)
  exact ⟨sp, sm, su, rfl, rfl, rfl, h.symm⟩

/-- Claim C1: for every footprint on the requested layer the classification
checks run in the fixed order — attribute exclusion, then pattern exclusion,
then priority patterns, then mapping-key lookup, with unmapped as fallback
(the five bucket characterisations via `classifyOne`); the pattern loop's
early return equals existence of a matching pattern, so the first matching
pattern in file order decides; and a pattern-excluded footprint never
reaches the priority, mapped or unmapped groups. -/
theorem C1_classification_order (search : String → String → Bool)
    (e p : List String) (mp : List (String × String × String))
    (fps : List Footprint) (layer : Nat) (mod : Footprint) :
    (mod ∈ (classify search e p mp fps layer).excluded_by_attribute ↔
      mod ∈ fps ∧ mod.layer = layer ∧
        classifyOne search e p mp mod = ClassTag.exclAttrC) ∧
    (mod ∈ (classify search e p mp fps layer).excluded_by_pattern ↔
      mod ∈ fps ∧ mod.layer = layer ∧
        classifyOne search e p mp mod = ClassTag.exclPatternC) ∧
    (mod ∈ (classify search e p mp fps layer).priority_footprints ↔
      mod ∈ fps ∧ mod.layer = layer ∧
        classifyOne search e p mp mod = ClassTag.priorityC) ∧
    (mod ∈ (classify search e p mp fps layer).mapped_footprints ↔
      mod ∈ fps ∧ mod.layer = layer ∧
        classifyOne search e p mp mod = ClassTag.mappedC) ∧
    (mod ∈ (classify search e p mp fps layer).unmapped_footprints ↔
      mod ∈ fps ∧ mod.layer = layer ∧
        classifyOne search e p mp mod = ClassTag.unmappedC) ∧
    (is_excluded search e mod = e.any fun pat => search pat mod.value) ∧
    (attrExcluded mod.attributes = false → is_excluded search e mod = true →
      classifyOne search e p mp mod = ClassTag.exclPatternC ∧
      mod ∉ (classify search e p mp fps layer).priority_footprints ∧
      mod ∉ (classify search e p mp fps layer).mapped_footprints ∧
      mod ∉ (classify search e p mp fps layer).unmapped_footprints) := by
  refine ⟨mem_bucketOf_classify search e p mp fps layer mod ClassTag.exclAttrC,
    mem_bucketOf_classify search e p mp fps layer mod ClassTag.exclPatternC,
    mem_bucketOf_classify search e p mp fps layer mod ClassTag.priorityC,
    mem_bucketOf_classify search e p mp fps layer mod ClassTag.mappedC,
    mem_bucketOf_classify search e p mp fps layer mod ClassTag.unmappedC,
    matchesAny_eq_any search mod.value e, ?_⟩
  intro h1 h2
  have hco : classifyOne search e p mp mod = ClassTag.exclPatternC := by
    simp [classifyOne, h1, h2]
  refine ⟨hco, ?_, ?_, ?_⟩
  · intro hmem
    have h3 := ((mem_bucketOf_classify search e p mp fps layer mod
      ClassTag.priorityC).mp hmem).2.2
    simp [hco] at h3
  · intro hmem
    have h3 := ((mem_bucketOf_classify search e p mp fps layer mod
      ClassTag.mappedC).mp hmem).2.2
    simp [hco] at h3
  · intro hmem
    have h3 := ((mem_bucketOf_classify search e p mp fps layer mod
      ClassTag.unmappedC).mp hmem).2.2
    simp [hco] at h3

theorem C1_classification_order_witness :
    fpNC ∈ (classify ciSearch ["NC"] [] [("NC", ("1", "L1"))] [fpNC] 0).excluded_by_pattern ∧
    fpNC ∉ (classify ciSearch ["NC"] [] [("NC", ("1", "L1"))] [fpNC] 0).mapped_footprints := by
  have h := C1_classification_order ciSearch ["NC"] [] [("NC", ("1", "L1"))] [fpNC] 0 fpNC
  exact ⟨h.2.1.mpr (by refine ⟨by decide, by decide, by decide⟩),
    (h.2.2.2.2.2.2 (by decide) (by decide)).2.2.1⟩

/-- Claim C2: a footprint whose attribute flags mark it excluded from
position or BOM files contributes no data row to the CSV: on a successful
write the output is exactly the header, the rendered rows of the three
sorted groups, and the trailer, and the flagged footprint is in none of the
three groups — regardless of the mapping and pattern inputs. -/
theorem C2_attribute_excluded_not_emitted (search : String → String → Bool)
    (e p : List String) (mp : List (String × String × String))
    (fps : List Footprint) (layer : Nat) (x y : Rat) (mod : Footprint)
    (out : List (List String))
    (_h1 : mod ∈ fps) (h2 : attrExcluded mod.attributes = true)
    (h3 : write_qihe_file search fps layer x y mp e p = .ok out) :
    ∃ sp sm su,
      sortGroup (classify search e p mp fps layer).priority_footprints = some sp ∧
      sortGroup (classify search e p mp fps layer).mapped_footprints = some sm ∧
      sortGroup (classify search e p mp fps layer).unmapped_footprints = some su ∧
      out = headerRow :: ((sp ++ sm ++ su).map (renderRow sp mp x y) ++ trailerRows) ∧
      mod ∉ sp ++ sm ++ su := by
  obtain ⟨sp, sm, su, hsp, hsm, hsu, hout⟩ :=
    write_qihe_file_ok search fps layer x y mp e p out h3
  refine ⟨sp, sm, su, hsp, hsm, hsu, hout, ?_⟩
  have hco : classifyOne search e p mp mod = ClassTag.exclAttrC := by
    simp [classifyOne, h2]
  intro hmem
  rw [List.mem_append, List.mem_append] at hmem
  rcases hmem with (hm | hm) | hm
  · have h4 := ((mem_bucketOf_classify search e p mp fps layer mod
      ClassTag.priorityC).mp (((sortGroup_eq_some _ _ hsp).1.mem_iff).mp hm)).2.2
    simp [hco] at h4
  · have h4 := ((mem_bucketOf_classify search e p mp fps layer mod
      ClassTag.mappedC).mp (((sortGroup_eq_some _ _ hsm).1.mem_iff).mp hm)).2.2
    simp [hco] at h4
  · have h4 := ((mem_bucketOf_classify search e p mp fps layer mod
      ClassTag.unmappedC).mp (((sortGroup_eq_some _ _ hsu).1.mem_iff).mp hm)).2.2
    simp [hco] at h4

theorem C2_attribute_excluded_not_emitted_witness :
    fpAttr ∈ [fpAttr] ∧ attrExcluded fpAttr.attributes = true ∧
    ∃ sp sm su,
      sortGroup (classify ciSearch [] [] [("NC", ("1", "L1"))] [fpAttr] 0).priority_footprints
        = some sp ∧
      sortGroup (classify ciSearch [] [] [("NC", ("1", "L1"))] [fpAttr] 0).mapped_footprints
        = some sm ∧
      sortGroup (classify ciSearch [] [] [("NC", ("1", "L1"))] [fpAttr] 0).unmapped_footprints
        = some su ∧
      headerRow :: trailerRows =
        headerRow :: ((sp ++ sm ++ su).map (renderRow sp [("NC", ("1", "L1"))] 0 0)
          ++ trailerRows) ∧
      fpAttr ∉ sp ++ sm ++ su :=
  ⟨by decide, by decide,
    C2_attribute_excluded_not_emitted ciSearch [] [] [("NC", ("1", "L1"))] [fpAttr] 0 0 0
      fpAttr (headerRow :: trailerRows) (by decide) (by decide) (by rfl)⟩

/-- Claim C3: a mapping line whose tag is neither `E` nor `P` leaves both
pattern lists unchanged and inserts every colon-separated (stripped) value
as a key mapped to `(tag, param)`; in particular the single line
`1, L1, 0n1:100nF` produces exactly the two entries
`0n1 ↦ ("1","L1")` and `100nF ↦ ("1","L1")`. -/
theorem C3_mapping_line_inserts :
    (∀ (d : MappingData) (rawLine p0 p1 p2 : String) (rest : List String),
      pySplitChar ',' (pyStrip rawLine) = p0 :: p1 :: p2 :: rest →
      pyStrip rawLine ≠ "" →
      (pyStrip rawLine).data.head? ≠ some '#' →
      pyStrip p0 ≠ "E" → pyStrip p0 ≠ "P" →
      (process_mapping_line d rawLine).exclude_patterns = d.exclude_patterns ∧
      (process_mapping_line d rawLine).priority_patterns = d.priority_patterns ∧
      ∀ k, dictGet (process_mapping_line d rawLine).mapping k =
        if (pySplitChar ':' (pyStrip p2)).any (fun comp => pyStrip comp = k) then
          some (pyStrip p0, pyStrip p1)
        else dictGet d.mapping k) ∧
    load_component_mapping ["1, L1, 0n1:100nF"] =
      ⟨[("0n1", ("1", "L1")), ("100nF", ("1", "L1"))], [], []⟩ := by
  constructor
  · intro d rawLine p0 p1 p2 rest hsplit hne hhash hE hP
    have hcond : (pyStrip rawLine = "" || (pyStrip rawLine).data.head? = some '#')
        = false := by
      simp [hne, hhash]
    unfold process_mapping_line
    simp only [hcond, Bool.false_eq_true, if_false, hsplit]
    rw [if_neg hE, if_neg hP]
    refine ⟨rfl, rfl, fun k => ?_⟩
    exact dictGet_foldl_dictInsert (pyStrip p0, pyStrip p1) pyStrip
      (pySplitChar ':' (pyStrip p2)) d.mapping k
  · decide

theorem C3_mapping_line_inserts_witness :
    dictGet (process_mapping_line ⟨[], [], []⟩ "1, L1, 0n1:100nF").mapping "100nF" =
      some ("1", "L1") := by
  have h := C3_mapping_line_inserts.1 ⟨[], [], []⟩ "1, L1, 0n1:100nF"
    "1" " L1" " 0n1:100nF" [] (by decide) (by decide) (by decide) (by decide) (by decide)
  rw [h.2.2 "100nF"]
  decide

/-- Claim C4: on a successful write the emitted data rows are the three
groups, each a permutation of the corresponding classification bucket
sorted under `sortKeyRel` (Python string order on the first
whitespace-delimited token of the value, per `get_sort_key`), concatenated
in the fixed order priority, mapped, unmapped. -/
theorem C4_groups_sorted_and_concatenated (search : String → String → Bool)
    (e p : List String) (mp : List (String × String × String))
    (fps : List Footprint) (layer : Nat) (x y : Rat) (out : List (List String))
    (h : write_qihe_file search fps layer x y mp e p = .ok out) :
    ∃ sp sm su,
      out = headerRow :: ((sp ++ sm ++ su).map (renderRow sp mp x y) ++ trailerRows) ∧
      sp.Perm (classify search e p mp fps layer).priority_footprints ∧
      sm.Perm (classify search e p mp fps layer).mapped_footprints ∧
      su.Perm (classify search e p mp fps layer).unmapped_footprints ∧
      List.Sorted sortKeyRel sp ∧ List.Sorted sortKeyRel sm ∧
      List.Sorted sortKeyRel su := by
  obtain ⟨sp, sm, su, hsp, hsm, hsu, hout⟩ :=
    write_qihe_file_ok search fps layer x y mp e p out h
  obtain ⟨hperm1, hsort1⟩ := sortGroup_eq_some _ _ hsp
  obtain ⟨hperm2, hsort2⟩ := sortGroup_eq_some _ _ hsm
  obtain ⟨hperm3, hsort3⟩ := sortGroup_eq_some _ _ hsu
  exact ⟨sp, sm, su, hout, hperm1, hperm2, hperm3, hsort1, hsort2, hsort3⟩

theorem C4_groups_sorted_and_concatenated_witness :
    write_qihe_file ciSearch [fpR2, fpR1] 0 0 0 [] [] [] =
      .ok (headerRow :: ([fpR1, fpR2].map (renderRow [] [] 0 0) ++ trailerRows)) ∧
    ∃ sp sm su,
      headerRow :: ([fpR1, fpR2].map (renderRow [] [] 0 0) ++ trailerRows) =
        headerRow :: ((sp ++ sm ++ su).map (renderRow sp [] 0 0) ++ trailerRows) ∧
      sp.Perm (classify ciSearch [] [] [] [fpR2, fpR1] 0).priority_footprints ∧
      sm.Perm (classify ciSearch [] [] [] [fpR2, fpR1] 0).mapped_footprints ∧
      su.Perm (classify ciSearch [] [] [] [fpR2, fpR1] 0).unmapped_footprints ∧
      List.Sorted sortKeyRel sp ∧ List.Sorted sortKeyRel sm ∧
      List.Sorted sortKeyRel su := by
  have hw : write_qihe_file ciSearch [fpR2, fpR1] 0 0 0 [] [] [] =
      .ok (headerRow :: ([fpR1, fpR2].map (renderRow [] [] 0 0) ++ trailerRows)) := by
    rfl
  exact ⟨hw, C4_groups_sorted_and_concatenated ciSearch [] [] [] [fpR2, fpR1] 0 0 0 _ hw⟩

/-- Claim C5: the rotation cell of every data row is the two-decimal
rendering of `(orientation_degrees + 270) mod 360` (Python floor-mod), and
an input orientation of 90 degrees yields exactly `0.00`. -/
theorem C5_rotation_formula (prioList : List Footprint)
    (mp : List (String × String × String)) (x y : Rat) (mod : Footprint) :
    (renderRow prioList mp x y mod)[5]? =
      some (formatFixed2 (pyMod (mod.orientationDegrees + 270) 360)) ∧
    pyMod ((90 : Rat) + 270) 360 = 0 ∧
    formatFixed2 (pyMod ((90 : Rat) + 270) 360) = "0.00" := by
  have h0 : pyMod ((90 : Rat) + 270) 360 = 0 := by
    norm_num [pyMod, ratFloor]
  refine ⟨rfl, h0, ?_⟩
  rw [h0]
  norm_num [formatFixed2, ratRound2, ratFloor, twoDigitStr]
  decide

/-- Claim C6: every successful write emits the header followed by some data
rows and then the fixed trailer; with zero footprints the output is exactly
the header followed by the trailer; and the trailer is one blank row, the
`Puzzle` row, eight `0.00`/blank pairs, and two final blank rows. -/
theorem C6_fixed_trailer (search : String → String → Bool)
    (e p : List String) (mp : List (String × String × String))
    (layer : Nat) (x y : Rat) :
    (∀ (fps : List Footprint) (out : List (List String)),
      write_qihe_file search fps layer x y mp e p = .ok out →
      ∃ rows, out = headerRow :: (rows ++ trailerRows)) ∧
    write_qihe_file search [] layer x y mp e p = .ok (headerRow :: trailerRows) ∧
    trailerRows =
      [[], ["Puzzle"], ["0.00"], [], ["0.00"], [], ["0.00"], [], ["0.00"], [],
       ["0.00"], [], ["0.00"], [], ["0.00"], [], ["0.00"], [], [], []] := by
  refine ⟨?_, by rfl, by rfl⟩
  intro fps out h
  obtain ⟨sp, sm, su, _, _, _, hout⟩ :=
    write_qihe_file_ok search fps layer x y mp e p out h
  exact ⟨(sp ++ sm ++ su).map (renderRow sp mp x y), hout⟩

theorem C6_fixed_trailer_witness :
    write_qihe_file ciSearch [] 0 0 0 [] [] [] = .ok (headerRow :: trailerRows) ∧
    ∃ rows, headerRow :: trailerRows = headerRow :: (rows ++ trailerRows) := by
  have h := C6_fixed_trailer ciSearch [] [] [] 0 0 0
  exact ⟨h.2.1, h.1 [] (headerRow :: trailerRows) h.2.1⟩

/-- Claim C7: a footprint in the unmapped group has a value that is not a
mapping key, and its rendered row carries the placeholder nozzle `1/2` and
stack `None`. -/
theorem C7_unmapped_defaults (search : String → String → Bool)
    (e p : List String) (mp : List (String × String × String))
    (fps : List Footprint) (layer : Nat) (x y : Rat)
    (prioList : List Footprint) (mod : Footprint)
    (h : mod ∈ (classify search e p mp fps layer).unmapped_footprints) :
    dictGet mp mod.value = none ∧
    (renderRow prioList mp x y mod)[1]? = some "1/2" ∧
    (renderRow prioList mp x y mod)[2]? = some "None" := by
  have h3 := ((mem_bucketOf_classify search e p mp fps layer mod
    ClassTag.unmappedC).mp h).2.2
  have hnone : dictGet mp mod.value = none := by
    by_cases h1 : attrExcluded mod.attributes = true
    · simp [classifyOne, h1] at h3
    · by_cases h2 : is_excluded search e mod = true
      · simp [classifyOne, h1, h2] at h3
      · by_cases h4 : is_priority search p mod = true
        · simp [classifyOne, h1, h2, h4] at h3
        · by_cases h5 : (dictGet mp mod.value).isSome = true
          · simp [classifyOne, h1, h2, h4, h5] at h3
          · exact Option.not_isSome_iff_eq_none.mp h5
  refine ⟨hnone, ?_, ?_⟩ <;> simp [renderRow, hnone]

theorem C7_unmapped_defaults_witness :
    fpR1 ∈ (classify ciSearch [] [] [] [fpR1] 0).unmapped_footprints ∧
    dictGet ([] : List (String × String × String)) fpR1.value = none ∧
    (renderRow [] [] 0 0 fpR1)[1]? = some "1/2" ∧
    (renderRow [] [] 0 0 fpR1)[2]? = some "None" :=
  ⟨by decide, C7_unmapped_defaults ciSearch [] [] [] [fpR1] 0 0 0 [] fpR1 (by decide)⟩

/-- Claim C8: for every mapping file and component name, the lookup table
yields exactly the `(nozzle, feeder)` pair of the last line in file order
that defines that name — later lines overwrite earlier ones; in particular
two lines defining `0n1` leave the second line's pair. -/
theorem C8_last_definition_wins :
    (∀ (lines : List String) (k : String),
      dictGet (load_component_mapping lines).mapping k = lastDefinition lines k) ∧
    dictGet (load_component_mapping ["1, L1, 0n1", "2, B3, 0n1"]).mapping "0n1" =
      some ("2", "B3") := by
  constructor
  · intro lines k
    unfold load_component_mapping
    rw [dictGet_foldl_process]
    simp [dictGet]
  · decide

/-- Claim C9 counterexample: the synthesized default template contains no
active line of any of the three documented types — every line is blank or a
`#` comment, and parsing the template yields an empty mapping and empty
exclusion and priority pattern lists. -/
theorem C9_counterexample_template_all_comments :
    load_component_mapping default_mapping_lines = ⟨[], [], []⟩ ∧
    ∀ l ∈ default_mapping_lines,
      pyStrip l = "" ∨ (pyStrip l).data.head? = some '#' := by
  constructor
  · decide
  · decide

/-- Claim C9 (amended): when the mapping file is absent, loading writes the
default template at that path and then parses that same content; the
template's text documents the three line types through commented example
lines (a component-mapping example, an `E` exclude example and a `P`
priority example), but all of them are comments, so the parsed result is
empty. -/
theorem C9_template_documents_line_types :
    load_component_mapping_fs none =
      (default_mapping_lines, load_component_mapping default_mapping_lines) ∧
    "#   Example: 1, L1, 0n1:100nF:100nf:0.1uF:0.1uf" ∈ default_mapping_lines ∧
    "#   Example: E, , NC:TP" ∈ default_mapping_lines ∧
    "#   Example: P, , FIDUCIAL:TESTPOINT" ∈ default_mapping_lines ∧
    load_component_mapping default_mapping_lines = ⟨[], [], []⟩ := by
  refine ⟨rfl, by decide, by decide, by decide, by decide⟩

/-- Claim C10: a surviving footprint (right layer, not attribute-excluded,
not pattern-excluded) whose value is empty or whitespace-only has no sort
key — `value.split()[0]` indexes an empty list — so the write aborts into
the error branch instead of producing the documented CSV. -/
theorem C10_blank_value_aborts (search : String → String → Bool)
    (e p : List String) (mp : List (String × String × String))
    (fps : List Footprint) (layer : Nat) (x y : Rat) (mod : Footprint)
    (h1 : mod ∈ fps) (h2 : mod.layer = layer)
    (h3 : attrExcluded mod.attributes = false)
    (h4 : is_excluded search e mod = false)
    (h5 : ∀ c ∈ mod.value.data, pyIsSpace c = true) :
    write_qihe_file search fps layer x y mp e p =
      .error "Error writing to file: list index out of range" := by
  have hkey : get_sort_key mod = none := get_sort_key_none mod h5
  have hco : classifyOne search e p mp mod = ClassTag.priorityC ∨
      classifyOne search e p mp mod = ClassTag.mappedC ∨
      classifyOne search e p mp mod = ClassTag.unmappedC := by
    by_cases hp : is_priority search p mod = true <;>
      by_cases hm : (dictGet mp mod.value).isSome = true <;>
        simp [classifyOne, h3, h4, hp, hm]
  have hnone :
      sortGroup (classify search e p mp fps layer).priority_footprints = none ∨
      sortGroup (classify search e p mp fps layer).mapped_footprints = none ∨
      sortGroup (classify search e p mp fps layer).unmapped_footprints = none := by
    rcases hco with hc | hc | hc
    · exact Or.inl (sortGroup_eq_none _ mod
        ((mem_bucketOf_classify search e p mp fps layer mod
          ClassTag.priorityC).mpr ⟨h1, h2, hc⟩) hkey)
    · exact Or.inr (Or.inl (sortGroup_eq_none _ mod
        ((mem_bucketOf_classify search e p mp fps layer mod
          ClassTag.mappedC).mpr ⟨h1, h2, hc⟩) hkey))
    · exact Or.inr (Or.inr (sortGroup_eq_none _ mod
        ((mem_bucketOf_classify search e p mp fps layer mod
          ClassTag.unmappedC).mpr ⟨h1, h2, hc⟩) hkey))
  simp only [write_qihe_file]
  rcases hs1 : sortGroup (classify search e p mp fps layer).priority_footprints
      with _ | sp <;>
    rcases hs2 : sortGroup (classify search e p mp fps layer).mapped_footprints
        with _ | sm <;>
      rcases hs3 : sortGroup (classify search e p mp fps layer).unmapped_footprints
          with _ | su
  · rfl
  · rfl
  · rfl
  · rfl
  · rfl
  · rfl
  · rfl
  rcases hnone with hn | hn | hn
  · rw [hn] at hs1
    cases hs1
  · rw [hn] at hs2
    cases hs2
  · rw [hn] at hs3
    cases hs3

theorem C10_blank_value_aborts_witness :
    fpBlank ∈ [fpBlank] ∧ fpBlank.layer = 0 ∧
    attrExcluded fpBlank.attributes = false ∧
    is_excluded ciSearch [] fpBlank = false ∧
    write_qihe_file ciSearch [fpBlank] 0 0 0 [] [] [] =
      .error "Error writing to file: list index out of range" :=
  ⟨by decide, by decide, by decide, by decide,
    C10_blank_value_aborts ciSearch [] [] [] [fpBlank] 0 0 0 fpBlank
      (by decide) (by decide) (by decide) (by decide) (by decide)⟩
